import Mathlib

/-!
Shallow embedding of the two Lambda table-provisioning variants
(`athena-table-creator.py`, the Glue catalog variant, and
`athena-table-creator-via-athena.py`, the Athena query variant).

Python dictionaries for table configurations are modelled as structures with
optional fields; a missing key read (`config['name']`) becomes an
`Except.error "KeyError: <key>"`.  Remote AWS clients are modelled as stateful
oracles passed in as parameters, so theorems quantify over every possible
remote behaviour; instantiating the state type with a list of requests gives
an observable trace of the calls the code makes.
-/

/-- One entry of a `columns` list of a table configuration: a dictionary with
keys `name` and `type`, either of which may be missing. -/
structure ColumnConfig where
  name : Option String
  type : Option String
deriving DecidableEq, Repr

/-- One table configuration dictionary.  Every key may be missing; the Glue
variant reads `name`, `description`, `columns`, `location`, the Athena
variant reads `name` and `query`. -/
structure TableConfig where
  name : Option String
  description : Option String
  columns : Option (List ColumnConfig)
  location : Option String
  query : Option String
deriving DecidableEq, Repr

/-- A Glue column definition `{'Name': ..., 'Type': ...}` as built by
`parse_column_definitions` (the field `ColType` models the `Type` key, which
cannot be a Lean field name). -/
structure ColumnDef where
  Name : String
  ColType : String
deriving DecidableEq, Repr

/-- The `StorageDescriptor` part of the Glue `table_input` dictionary. -/
structure StorageDesc where
  Columns : List ColumnDef
  Location : String
deriving DecidableEq, Repr

/-- The `table_input` dictionary built by `create_table` and submitted to the
Glue `create_table` API. -/
structure TableInput where
  Name : String
  DatabaseName : String
  Description : String
  TableType : String
  Storage : StorageDesc
deriving DecidableEq, Repr

/-- Result of one remote Glue `create_table` call: success, a
`botocore` `ClientError` carrying an error code and message, or any other
exception. -/
inductive GlueResult where
  | ok : GlueResult
  | clientError (code msg : String) : GlueResult
  | otherError (msg : String) : GlueResult
deriving DecidableEq, Repr

/-- The report dictionary returned by `create_tables` in both variants. -/
structure BatchReport where
  success_count : Nat
  failed_tables : List String
  total_tables : Nat
deriving DecidableEq, Repr

namespace Glue

/-- `parse_column_definitions` of the Glue variant: builds
`{'Name': col['name'], 'Type': col['type']}` for each column in order; a
missing key raises a `KeyError`. -/
def parse_column_definitions : List ColumnConfig → Except String (List ColumnDef)
  | [] => .ok []
  | col :: rest =>
    match col.name with
    | none => .error "KeyError: name"
    | some n =>
      match col.type with
      | none => .error "KeyError: type"
      | some t => (parse_column_definitions rest).map (fun cs => ⟨n, t⟩ :: cs)

/-- Construction of the `table_input` dictionary inside `create_table`
(lines 43-52 of the Glue variant), with the source's key-read order:
`name`, `description` (via `.get`, never failing), `columns` (and each
column's keys), `location`. -/
def buildTableInput (DATABASE DATA_BUCKET : String) (cfg : TableConfig) :
    Except String TableInput :=
  match cfg.name with
  | none => .error "KeyError: name"
  | some n =>
    let desc := cfg.description.getD ""
    match cfg.columns with
    | none => .error "KeyError: columns"
    | some cols =>
      match parse_column_definitions cols with
      | .error e => .error e
      | .ok cdefs =>
        match cfg.location with
        | none => .error "KeyError: location"
        | some loc =>
          .ok ⟨n, DATABASE, desc, "EXTERNAL_TABLE",
               ⟨cdefs, "s3://" ++ DATA_BUCKET ++ "/" ++ loc⟩⟩

/-- `create_table` of the Glue variant, parameterised by a stateful oracle
`glue` for the remote catalog call.  All exceptions inside the `try` are
caught: a `ClientError` with code `AlreadyExistsException` yields `True`,
any other `ClientError` or exception yields `False`.  The one exception that
escapes is the `KeyError` re-raised by the `except` handler itself when it
formats its log message from the missing `name` key. -/
def create_table {σ : Type} (glue : String → TableInput → σ → GlueResult × σ)
    (DATABASE DATA_BUCKET : String) (cfg : TableConfig) (s : σ) :
    Except String Bool × σ :=
  match buildTableInput DATABASE DATA_BUCKET cfg with
  | .ok ti =>
    match glue DATABASE ti s with
    | (.ok, s') => (.ok true, s')
    | (.clientError code _, s') =>
      if code = "AlreadyExistsException" then (.ok true, s') else (.ok false, s')
    | (.otherError _, s') => (.ok false, s')
  | .error e =>
    match cfg.name with
    | some _ => (.ok false, s)
    | none => (.error e, s)

/-- The `for` loop of `create_tables` in the Glue variant, carrying the
`success_count` and `failed_tables` accumulators.  A `False` return appends
`config['name']`; an exception from `create_table` is caught and the handler
appends `config['name']` — when that key is itself missing the handler's
`KeyError` escapes the loop. -/
def create_tables_loop {σ : Type} (glue : String → TableInput → σ → GlueResult × σ)
    (db bkt : String) :
    List TableConfig → Nat → List String → σ → Except String (Nat × List String) × σ
  | [], sc, ft, s => (.ok (sc, ft), s)
  | cfg :: rest, sc, ft, s =>
    match create_table glue db bkt cfg s with
    | (.ok true, s') => create_tables_loop glue db bkt rest (sc + 1) ft s'
    | (.ok false, s') =>
      match cfg.name with
      | some n => create_tables_loop glue db bkt rest sc (ft ++ [n]) s'
      | none => (.error "KeyError: name", s')
    | (.error _, s') =>
      match cfg.name with
      | some n => create_tables_loop glue db bkt rest sc (ft ++ [n]) s'
      | none => (.error "KeyError: name", s')

/-- `create_tables` of the Glue variant: runs the loop from empty
accumulators and returns the report dictionary with
`total_tables = len(table_configs)`. -/
def create_tables {σ : Type} (glue : String → TableInput → σ → GlueResult × σ)
    (db bkt : String) (cfgs : List TableConfig) (s : σ) :
    Except String BatchReport × σ :=
  match create_tables_loop glue db bkt cfgs 0 [] s with
  | (.ok (sc, ft), s') => (.ok ⟨sc, ft, cfgs.length⟩, s')
  | (.error e, s') => (.error e, s')

end Glue

/-- A `start_query_execution` request of the Athena variant: the query
string, the query-execution-context database, and the result output
location. -/
structure StartQueryReq where
  QueryString : String
  Database : String
  OutputLocation : String
deriving DecidableEq, Repr

/-- Result of one remote Athena `start_query_execution` call: the dispatch
is accepted, or the call raises with some message. -/
inductive AthenaResult where
  | accepted : AthenaResult
  | err (msg : String) : AthenaResult
deriving DecidableEq, Repr

namespace Athena

/-- First character of a Python `string.Template` identifier
(`[_a-z]` with `IGNORECASE`). -/
def isIdStart (c : Char) : Bool := c.isAlpha || c = '_'

/-- Subsequent character of a Python `string.Template` identifier
(`[_a-z0-9]` with `IGNORECASE`). -/
def isIdChar (c : Char) : Bool := c.isAlpha || c.isDigit || c = '_'

/-- Left-to-right lookup in the substitution mapping. -/
def lookupSub (subs : List (String × String)) (k : String) : Option String :=
  match subs with
  | [] => none
  | (a, b) :: rest => if a = k then some b else lookupSub rest k

/-- Character-level scanner of `string.Template.safe_substitute`: `$$`
becomes `$`; `$ident` and `$\x7bident\x7d` are replaced when `ident` is
mapped and left verbatim otherwise; a `$` that starts no valid pattern is
left as-is and scanning resumes after it.  Substituted values are never
rescanned.  `fuel` only bounds the recursion and is always at least the
length of the remaining input plus one, so the `0` case is unreachable. -/
def subAux (subs : List (String × String)) : Nat → List Char → List Char
  | 0, cs => cs
  | _ + 1, [] => []
  | fuel + 1, c :: cs =>
    if c = '$' then
      match cs with
      | '$' :: rest => '$' :: subAux subs fuel rest
      | '{' :: rest =>
        match rest with
        | d :: ds =>
          if isIdStart d then
            let ident := d :: ds.takeWhile isIdChar
            match ds.dropWhile isIdChar with
            | '}' :: rest2 =>
              match lookupSub subs (String.mk ident) with
              | some v => v.data ++ subAux subs fuel rest2
              | none => '$' :: '{' :: (ident ++ '}' :: subAux subs fuel rest2)
            | _ => '$' :: subAux subs fuel cs
          else '$' :: subAux subs fuel cs
        | [] => '$' :: subAux subs fuel cs
      | d :: ds =>
        if isIdStart d then
          let ident := d :: ds.takeWhile isIdChar
          match lookupSub subs (String.mk ident) with
          | some v => v.data ++ subAux subs fuel (ds.dropWhile isIdChar)
          | none => '$' :: (ident ++ subAux subs fuel (ds.dropWhile isIdChar))
        else '$' :: subAux subs fuel cs
      | [] => ['$']
    else c :: subAux subs fuel cs

/-- `Template(tmpl).safe_substitute(subs)`: non-strict placeholder
substitution, total (never fails on missing keys). -/
def safe_substitute (tmpl : String) (subs : List (String × String)) : String :=
  String.mk (subAux subs (tmpl.data.length + 1) tmpl.data)

/-- `execute_query` of the Athena variant, parameterised by a stateful
oracle `athena` for `start_query_execution`.  Every exception is caught and
converted to `False`; an accepted dispatch is `True`. -/
def execute_query {σ : Type} (athena : StartQueryReq → σ → AthenaResult × σ)
    (RESULTS_BUCKET : String) (query database : String) (s : σ) : Bool × σ :=
  match athena ⟨query, database,
      "s3://" ++ RESULTS_BUCKET ++ "/athena-query-results/"⟩ s with
  | (.accepted, s') => (true, s')
  | (.err _, s') => (false, s')

/-- The `for` loop of `create_tables` in the Athena variant.  Each spec's
`query` is resolved with the single substitution `DATA_BUCKET → bkt` and
dispatched; `True` increments `success_count` (then the success log line
reads `config['name']`), `False` appends `config['name']`.  Exceptions
inside the `try` — a `KeyError` for a missing `query`, or the `KeyError`
from the success log line when `name` is missing — are caught by the
handler, which itself reads `config['name']` and lets its own `KeyError`
escape the loop. -/
def create_tables_loop {σ : Type} (athena : StartQueryReq → σ → AthenaResult × σ)
    (db bkt rb : String) :
    List TableConfig → Nat → List String → σ → Except String (Nat × List String) × σ
  | [], sc, ft, s => (.ok (sc, ft), s)
  | cfg :: rest, sc, ft, s =>
    match cfg.query with
    | none =>
      match cfg.name with
      | some n => create_tables_loop athena db bkt rb rest sc (ft ++ [n]) s
      | none => (.error "KeyError: name", s)
    | some tq =>
      match execute_query athena rb (safe_substitute tq [("DATA_BUCKET", bkt)]) db s with
      | (true, s') =>
        match cfg.name with
        | some _ => create_tables_loop athena db bkt rb rest (sc + 1) ft s'
        | none => (.error "KeyError: name", s')
      | (false, s') =>
        match cfg.name with
        | some n => create_tables_loop athena db bkt rb rest sc (ft ++ [n]) s'
        | none => (.error "KeyError: name", s')

/-- `create_tables` of the Athena variant. -/
def create_tables {σ : Type} (athena : StartQueryReq → σ → AthenaResult × σ)
    (db bkt rb : String) (cfgs : List TableConfig) (s : σ) :
    Except String BatchReport × σ :=
  match create_tables_loop athena db bkt rb cfgs 0 [] s with
  | (.ok (sc, ft), s') => (.ok ⟨sc, ft, cfgs.length⟩, s')
  | (.error e, s') => (.error e, s')

/-- A recording Athena oracle built from a pure dispatch function `f`: the
state is the trace of requests submitted so far, so the number and content
of remote calls is observable in theorems. -/
def oracleOf (f : StartQueryReq → AthenaResult) :
    StartQueryReq → List StartQueryReq → AthenaResult × List StartQueryReq :=
  fun req t => (f req, t ++ [req])

end Athena

/-- Body of the entry point's response: the 200 success shape
`\x7bmessage, details\x7d` or the 500 fatal shape `\x7berror\x7d`. -/
inductive ResponseBody where
  | success (message : String) (details : BatchReport) : ResponseBody
  | fatal (error : String) : ResponseBody
deriving DecidableEq, Repr

/-- The structured response returned by `lambda_handler`. -/
structure LambdaResponse where
  statusCode : Nat
  body : ResponseBody
deriving DecidableEq, Repr

/-- Python truthiness of `os.environ.get(var)`: `None` and the empty string
are falsy. -/
def pyTruthy : Option String → Bool
  | none => false
  | some s => s != ""

namespace Glue

/-- `validate_env_vars` of the Glue variant: collects the required variables
that are missing or empty and raises `ValueError` when any exist. -/
def validate_env_vars (env : String → Option String) : Except String Unit :=
  let missing := ["DATABASE_NAME", "DATA_BUCKET"].filter (fun v => !pyTruthy (env v))
  if missing = [] then .ok ()
  else .error ("Missing required environment variables: " ++ String.intercalate ", " missing)

/-- The module-level configuration reads of the Glue variant
(`DATABASE = os.environ['DATABASE_NAME']`, `DATA_BUCKET =
os.environ['DATA_BUCKET']`), run at import time, before any handler: an
absent variable raises `KeyError` and the module never loads. -/
def moduleInit (env : String → Option String) : Except String (String × String) :=
  match env "DATABASE_NAME" with
  | none => .error "KeyError: DATABASE_NAME"
  | some db =>
    match env "DATA_BUCKET" with
    | none => .error "KeyError: DATA_BUCKET"
    | some bkt => .ok (db, bkt)

/-- The success message f-string of `lambda_handler`. -/
def mkMessage (r : BatchReport) : String :=
  "Processed " ++ toString r.total_tables ++ " tables. " ++
    toString r.success_count ++ " succeeded, " ++
    toString r.failed_tables.length ++ " failed"

/-- `lambda_handler` of the Glue variant, with `read_table_configs`
modelled by its result `rc` (the file read either yields the parsed
`tables` list or raises).  Every exception is caught and returned as the
500 fatal shape. -/
def lambda_handler {σ : Type} (glue : String → TableInput → σ → GlueResult × σ)
    (DATABASE DATA_BUCKET : String) (env : String → Option String)
    (rc : Except String (List TableConfig)) (s : σ) : LambdaResponse × σ :=
  match validate_env_vars env with
  | .error e => (⟨500, .fatal e⟩, s)
  | .ok _ =>
    match rc with
    | .error e => (⟨500, .fatal e⟩, s)
    | .ok cfgs =>
      match create_tables glue DATABASE DATA_BUCKET cfgs s with
      | (.ok r, s') => (⟨200, .success (mkMessage r) r⟩, s')
      | (.error e, s') => (⟨500, .fatal e⟩, s')

/-- A full invocation of the Glue variant: module import (which reads the
required environment variables and fails with `KeyError` when one is
absent) followed by `lambda_handler`.  When import fails no response is
produced at all. -/
def invoke {σ : Type} (glue : String → TableInput → σ → GlueResult × σ)
    (env : String → Option String) (rc : Except String (List TableConfig))
    (s : σ) : Except String (LambdaResponse × σ) :=
  match moduleInit env with
  | .error e => .error e
  | .ok (db, bkt) => .ok (lambda_handler glue db bkt env rc s)

/-- Modelled from the spec: the remote catalog collaborator of §6 —
`(database, table-definition) → created | already-exists` — as a stateful
oracle whose state is the list of existing table names; creating an
existing table reports the `AlreadyExistsException` client error, creating
a fresh one succeeds and records it. -/
def glueCatalog : String → TableInput → List String → GlueResult × List String :=
  fun _ ti cat =>
    if cat.contains ti.Name then
      (.clientError "AlreadyExistsException" ("Table " ++ ti.Name ++ " already exists"), cat)
    else (.ok, ti.Name :: cat)

/-- The names of the specs that fail during a Glue-variant run, in input
order (the spec's stability law names this sequence: the order-preserving
subsequence of failing entries).  The walk mirrors the loop's state
threading and stops where the loop would escape with a `KeyError`. -/
def failingNames {σ : Type} (glue : String → TableInput → σ → GlueResult × σ)
    (db bkt : String) : List TableConfig → σ → List String
  | [], _ => []
  | cfg :: rest, s =>
    match create_table glue db bkt cfg s with
    | (.ok true, s') => failingNames glue db bkt rest s'
    | (.ok false, s') =>
      match cfg.name with
      | some n => n :: failingNames glue db bkt rest s'
      | none => []
    | (.error _, s') =>
      match cfg.name with
      | some n => n :: failingNames glue db bkt rest s'
      | none => []

end Glue

namespace Athena

/-- The names of the specs that fail during an Athena-variant run, in input
order (the spec's stability law sequence), mirroring the loop's state
threading and stopping where the loop would escape with a `KeyError`. -/
def failingNamesA {σ : Type} (athena : StartQueryReq → σ → AthenaResult × σ)
    (db bkt rb : String) : List TableConfig → σ → List String
  | [], _ => []
  | cfg :: rest, s =>
    match cfg.query with
    | none =>
      match cfg.name with
      | some n => n :: failingNamesA athena db bkt rb rest s
      | none => []
    | some tq =>
      match execute_query athena rb (safe_substitute tq [("DATA_BUCKET", bkt)]) db s with
      | (true, s') =>
        match cfg.name with
        | some _ => failingNamesA athena db bkt rb rest s'
        | none => []
      | (false, s') =>
        match cfg.name with
        | some n => n :: failingNamesA athena db bkt rb rest s'
        | none => []

end Athena

namespace Glue

/-- When the Glue loop returns normally, the counters balance: final
successes plus final failures equal the starting amounts plus the number of
specs processed. -/
theorem loop_sum {σ : Type} (glue : String → TableInput → σ → GlueResult × σ)
    (db bkt : String) :
    ∀ (cfgs : List TableConfig) (sc : Nat) (ft : List String) (s : σ)
      (sc' : Nat) (ft' : List String) (s' : σ),
      create_tables_loop glue db bkt cfgs sc ft s = (.ok (sc', ft'), s') →
      sc' + ft'.length = sc + ft.length + cfgs.length := by
  intro cfgs
  induction cfgs with
  | nil =>
    intro sc ft s sc' ft' s' h
    simp only [create_tables_loop, Prod.mk.injEq, Except.ok.injEq] at h
    obtain ⟨⟨h1, h2⟩, _⟩ := h
    subst h1; subst h2
    simp
  | cons cfg rest ih =>
    intro sc ft s sc' ft' s' h
    simp only [create_tables_loop] at h
    simp only [List.length_cons]
    split at h
    · have := ih _ _ _ _ _ _ h
      omega
    · split at h
      · have := ih _ _ _ _ _ _ h
        simp [List.length_append] at this
        omega
      · exact absurd h (by simp)
    · split at h
      · have := ih _ _ _ _ _ _ h
        simp [List.length_append] at this
        omega
      · exact absurd h (by simp)

/-- When the Glue loop returns normally, the final failure list is the
starting one followed by `failingNames` of the processed specs. -/
theorem loop_failed {σ : Type} (glue : String → TableInput → σ → GlueResult × σ)
    (db bkt : String) :
    ∀ (cfgs : List TableConfig) (sc : Nat) (ft : List String) (s : σ)
      (sc' : Nat) (ft' : List String) (s' : σ),
      create_tables_loop glue db bkt cfgs sc ft s = (.ok (sc', ft'), s') →
      ft' = ft ++ failingNames glue db bkt cfgs s := by
  intro cfgs
  induction cfgs with
  | nil =>
    intro sc ft s sc' ft' s' h
    simp only [create_tables_loop, Prod.mk.injEq, Except.ok.injEq] at h
    obtain ⟨⟨_, h2⟩, _⟩ := h
    subst h2
    simp [failingNames]
  | cons cfg rest ih =>
    intro sc ft s sc' ft' s' h
    simp only [create_tables_loop] at h
    unfold failingNames
    split at h
    · exact ih _ _ _ _ _ _ h
    · split at h
      · have := ih _ _ _ _ _ _ h
        simpa using this
      · exact absurd h (by simp)
    · split at h
      · have := ih _ _ _ _ _ _ h
        simpa using this
      · exact absurd h (by simp)

/-- Splitting a Glue loop run over an appended spec list. -/
theorem loop_append {σ : Type} (glue : String → TableInput → σ → GlueResult × σ)
    (db bkt : String) :
    ∀ (pre rest : List TableConfig) (sc : Nat) (ft : List String) (s : σ),
      create_tables_loop glue db bkt (pre ++ rest) sc ft s =
        match create_tables_loop glue db bkt pre sc ft s with
        | (.ok (sc1, ft1), s1) => create_tables_loop glue db bkt rest sc1 ft1 s1
        | (.error e, s1) => (.error e, s1) := by
  intro pre
  induction pre with
  | nil =>
    intro rest sc ft s
    simp [create_tables_loop]
  | cons cfg pre' ih =>
    intro rest sc ft s
    rcases hc : create_table glue db bkt cfg s with ⟨r, s1⟩
    match r with
    | .ok true => simp only [List.cons_append, create_tables_loop, hc]; exact ih ..
    | .ok false =>
      match hn : cfg.name with
      | some n => simp only [List.cons_append, create_tables_loop, hc, hn]; exact ih ..
      | none => simp only [List.cons_append, create_tables_loop, hc, hn]
    | .error e =>
      match hn : cfg.name with
      | some n => simp only [List.cons_append, create_tables_loop, hc, hn]; exact ih ..
      | none => simp only [List.cons_append, create_tables_loop, hc, hn]

/-- A Glue loop over specs that all carry a `name` key always returns
normally: every per-item fault is absorbed into the failure list. -/
theorem loop_total {σ : Type} (glue : String → TableInput → σ → GlueResult × σ)
    (db bkt : String) :
    ∀ (cfgs : List TableConfig) (sc : Nat) (ft : List String) (s : σ),
      (∀ c ∈ cfgs, (c.name).isSome) →
      ∃ sc' ft' s', create_tables_loop glue db bkt cfgs sc ft s = (.ok (sc', ft'), s') := by
  intro cfgs
  induction cfgs with
  | nil =>
    intro sc ft s _
    exact ⟨sc, ft, s, rfl⟩
  | cons cfg rest ih =>
    intro sc ft s hall
    have hname : (cfg.name).isSome := hall cfg (by simp)
    obtain ⟨n, hn⟩ := Option.isSome_iff_exists.mp hname
    have hrest : ∀ c ∈ rest, (c.name).isSome := fun c hc => hall c (by simp [hc])
    rcases hc : create_table glue db bkt cfg s with ⟨r, s1⟩
    match r with
    | .ok true =>
      obtain ⟨a, b, c, h⟩ := ih (sc + 1) ft s1 hrest
      exact ⟨a, b, c, by simp only [create_tables_loop, hc]; exact h⟩
    | .ok false =>
      obtain ⟨a, b, c, h⟩ := ih sc (ft ++ [n]) s1 hrest
      exact ⟨a, b, c, by simp only [create_tables_loop, hc, hn]; exact h⟩
    | .error e =>
      obtain ⟨a, b, c, h⟩ := ih sc (ft ++ [n]) s1 hrest
      exact ⟨a, b, c, by simp only [create_tables_loop, hc, hn]; exact h⟩

end Glue

namespace Athena

/-- When the Athena loop returns normally, the counters balance: final
successes plus final failures equal the starting amounts plus the number of
specs processed. -/
theorem loopA_sum {σ : Type} (athena : StartQueryReq → σ → AthenaResult × σ)
    (db bkt rb : String) :
    ∀ (cfgs : List TableConfig) (sc : Nat) (ft : List String) (s : σ)
      (sc' : Nat) (ft' : List String) (s' : σ),
      create_tables_loop athena db bkt rb cfgs sc ft s = (.ok (sc', ft'), s') →
      sc' + ft'.length = sc + ft.length + cfgs.length := by
  intro cfgs
  induction cfgs with
  | nil =>
    intro sc ft s sc' ft' s' h
    simp only [create_tables_loop, Prod.mk.injEq, Except.ok.injEq] at h
    obtain ⟨⟨h1, h2⟩, _⟩ := h
    subst h1; subst h2
    simp
  | cons cfg rest ih =>
    intro sc ft s sc' ft' s' h
    simp only [create_tables_loop] at h
    simp only [List.length_cons]
    split at h
    · split at h
      · have := ih _ _ _ _ _ _ h
        simp [List.length_append] at this
        omega
      · exact absurd h (by simp)
    · split at h
      · split at h
        · have := ih _ _ _ _ _ _ h
          omega
        · exact absurd h (by simp)
      · split at h
        · have := ih _ _ _ _ _ _ h
          simp [List.length_append] at this
          omega
        · exact absurd h (by simp)

/-- When the Athena loop returns normally, the final failure list is the
starting one followed by `failingNamesA` of the processed specs. -/
theorem loopA_failed {σ : Type} (athena : StartQueryReq → σ → AthenaResult × σ)
    (db bkt rb : String) :
    ∀ (cfgs : List TableConfig) (sc : Nat) (ft : List String) (s : σ)
      (sc' : Nat) (ft' : List String) (s' : σ),
      create_tables_loop athena db bkt rb cfgs sc ft s = (.ok (sc', ft'), s') →
      ft' = ft ++ failingNamesA athena db bkt rb cfgs s := by
  intro cfgs
  induction cfgs with
  | nil =>
    intro sc ft s sc' ft' s' h
    simp only [create_tables_loop, Prod.mk.injEq, Except.ok.injEq] at h
    obtain ⟨⟨_, h2⟩, _⟩ := h
    subst h2
    simp [failingNamesA]
  | cons cfg rest ih =>
    intro sc ft s sc' ft' s' h
    simp only [create_tables_loop] at h
    unfold failingNamesA
    split at h
    · split at h
      · have := ih _ _ _ _ _ _ h
        simpa using this
      · exact absurd h (by simp)
    · split at h
      · split at h
        · exact ih _ _ _ _ _ _ h
        · exact absurd h (by simp)
      · split at h
        · have := ih _ _ _ _ _ _ h
          simpa using this
        · exact absurd h (by simp)

end Athena

/-- A Glue loop over `pre ++ rest` whose `pre` part returns normally
continues into `rest` from the accumulated counters and state. -/
theorem Glue.loop_append_ok {σ : Type} (glue : String → TableInput → σ → GlueResult × σ)
    (db bkt : String) (pre rest : List TableConfig) (sc : Nat) (ft : List String)
    (s : σ) (sc1 : Nat) (ft1 : List String) (s1 : σ)
    (h : Glue.create_tables_loop glue db bkt pre sc ft s = (.ok (sc1, ft1), s1)) :
    Glue.create_tables_loop glue db bkt (pre ++ rest) sc ft s =
      Glue.create_tables_loop glue db bkt rest sc1 ft1 s1 := by
  rw [Glue.loop_append glue db bkt pre rest sc ft s, h]

/-- C1: for every non-empty list of table specs (in either variant), when
`create_tables` completes and returns a report,
`success_count + len(failed_tables) = total_tables`. -/
theorem c1_success_plus_failed_eq_total {σ τ : Type}
    (glue : String → TableInput → σ → GlueResult × σ)
    (athena : StartQueryReq → τ → AthenaResult × τ)
    (dbG bktG dbA bktA rb : String) (cfgsG cfgsA : List TableConfig)
    (s : σ) (t : τ) (r1 r2 : BatchReport) (s' : σ) (t' : τ)
    (hneG : cfgsG ≠ []) (hneA : cfgsA ≠ [])
    (hG : Glue.create_tables glue dbG bktG cfgsG s = (.ok r1, s'))
    (hA : Athena.create_tables athena dbA bktA rb cfgsA t = (.ok r2, t')) :
    r1.success_count + r1.failed_tables.length = r1.total_tables ∧
    r2.success_count + r2.failed_tables.length = r2.total_tables := by
  constructor
  · unfold Glue.create_tables at hG
    split at hG
    · rename_i sc ft s1 heq
      simp only [Prod.mk.injEq, Except.ok.injEq] at hG
      obtain ⟨h1, _⟩ := hG
      subst h1
      have := Glue.loop_sum glue dbG bktG cfgsG 0 [] s sc ft s1 heq
      simpa using this
    · exact absurd hG (by simp)
  · unfold Athena.create_tables at hA
    split at hA
    · rename_i sc ft t1 heq
      simp only [Prod.mk.injEq, Except.ok.injEq] at hA
      obtain ⟨h1, _⟩ := hA
      subst h1
      have := Athena.loopA_sum athena dbA bktA rb cfgsA 0 [] t sc ft t1 heq
      simpa using this
    · exact absurd hA (by simp)

/-- Witness for C1 at a concrete one-spec batch per variant. -/
theorem c1_witness :
    (⟨1, [], 1⟩ : BatchReport).success_count +
        (⟨1, [], 1⟩ : BatchReport).failed_tables.length =
      (⟨1, [], 1⟩ : BatchReport).total_tables ∧
    (⟨1, [], 1⟩ : BatchReport).success_count +
        (⟨1, [], 1⟩ : BatchReport).failed_tables.length =
      (⟨1, [], 1⟩ : BatchReport).total_tables :=
  c1_success_plus_failed_eq_total (σ := Unit) (τ := Unit)
    (fun _ _ s => (.ok, s)) (fun _ t => (.accepted, t))
    "d" "b" "d" "b" "r"
    [⟨some "t", none, some [⟨some "id", some "int"⟩], some "loc", none⟩]
    [⟨some "t", none, none, none, some "q"⟩]
    () () ⟨1, [], 1⟩ ⟨1, [], 1⟩ () ()
    (List.cons_ne_nil _ _) (List.cons_ne_nil _ _) rfl rfl

/-- C9: for every run that returns a report (in either variant),
`failed_tables` is exactly the sequence of names of the failing specs in
their input order — the order-preserving subsequence of failing entries. -/
theorem c9_failed_names_stable {σ τ : Type}
    (glue : String → TableInput → σ → GlueResult × σ)
    (athena : StartQueryReq → τ → AthenaResult × τ)
    (dbG bktG dbA bktA rb : String) (cfgsG cfgsA : List TableConfig)
    (s : σ) (t : τ) (r1 r2 : BatchReport) (s' : σ) (t' : τ)
    (hG : Glue.create_tables glue dbG bktG cfgsG s = (.ok r1, s'))
    (hA : Athena.create_tables athena dbA bktA rb cfgsA t = (.ok r2, t')) :
    r1.failed_tables = Glue.failingNames glue dbG bktG cfgsG s ∧
    r2.failed_tables = Athena.failingNamesA athena dbA bktA rb cfgsA t := by
  constructor
  · unfold Glue.create_tables at hG
    split at hG
    · rename_i sc ft s1 heq
      simp only [Prod.mk.injEq, Except.ok.injEq] at hG
      obtain ⟨h1, _⟩ := hG
      subst h1
      have := Glue.loop_failed glue dbG bktG cfgsG 0 [] s sc ft s1 heq
      simpa using this
    · exact absurd hG (by simp)
  · unfold Athena.create_tables at hA
    split at hA
    · rename_i sc ft t1 heq
      simp only [Prod.mk.injEq, Except.ok.injEq] at hA
      obtain ⟨h1, _⟩ := hA
      subst h1
      have := Athena.loopA_failed athena dbA bktA rb cfgsA 0 [] t sc ft t1 heq
      simpa using this
    · exact absurd hA (by simp)

/-- Witness for C9 at concrete batches where the single spec fails in each
variant (a Glue service error; an Athena dispatch rejection). -/
theorem c9_witness :
    (⟨0, ["t"], 1⟩ : BatchReport).failed_tables =
      Glue.failingNames (σ := Unit) (fun _ _ s => (.otherError "boom", s)) "d" "b"
        [⟨some "t", none, some [⟨some "id", some "int"⟩], some "loc", none⟩] () ∧
    (⟨0, ["u"], 1⟩ : BatchReport).failed_tables =
      Athena.failingNamesA (σ := Unit) (fun _ t => (.err "boom", t)) "d" "b" "r"
        [⟨some "u", none, none, none, some "q"⟩] () :=
  c9_failed_names_stable (σ := Unit) (τ := Unit)
    (fun _ _ s => (.otherError "boom", s)) (fun _ t => (.err "boom", t))
    "d" "b" "d" "b" "r"
    [⟨some "t", none, some [⟨some "id", some "int"⟩], some "loc", none⟩]
    [⟨some "u", none, none, none, some "q"⟩]
    () () ⟨0, ["t"], 1⟩ ⟨0, ["u"], 1⟩ () ()
    rfl rfl

/-- C2: a single malformed spec (missing `columns`) in a batch does not
stop the batch: the run still returns a report covering every spec (so all
other specs were attempted and classified), and the malformed spec's name
appears in `failed_tables`. -/
theorem c2_malformed_spec_isolated {σ : Type}
    (glue : String → TableInput → σ → GlueResult × σ) (db bkt : String)
    (pre post : List TableConfig) (m : TableConfig) (n : String) (s : σ)
    (hpre : ∀ c ∈ pre, (c.name).isSome) (hpost : ∀ c ∈ post, (c.name).isSome)
    (hm : m.name = some n) (hcols : m.columns = none) :
    ∃ r s', Glue.create_tables glue db bkt (pre ++ m :: post) s = (.ok r, s') ∧
      n ∈ r.failed_tables ∧
      r.total_tables = pre.length + 1 + post.length ∧
      r.success_count + r.failed_tables.length = r.total_tables := by
  obtain ⟨sc1, ft1, s1, h1⟩ := Glue.loop_total glue db bkt pre 0 [] s hpre
  have hmstep : Glue.create_table glue db bkt m s1 = (.ok false, s1) := by
    simp [Glue.create_table, Glue.buildTableInput, hm, hcols]
  obtain ⟨sc2, ft2, s2, h2⟩ := Glue.loop_total glue db bkt post sc1 (ft1 ++ [n]) s1 hpost
  have hloop : Glue.create_tables_loop glue db bkt (pre ++ m :: post) 0 [] s
      = (.ok (sc2, ft2), s2) := by
    rw [Glue.loop_append_ok glue db bkt pre (m :: post) 0 [] s sc1 ft1 s1 h1]
    simp only [Glue.create_tables_loop, hmstep, hm]
    exact h2
  have hmem : n ∈ ft2 := by
    have := Glue.loop_failed glue db bkt post sc1 (ft1 ++ [n]) s1 sc2 ft2 s2 h2
    rw [this]
    simp
  have hsum := Glue.loop_sum glue db bkt (pre ++ m :: post) 0 [] s sc2 ft2 s2 hloop
  refine ⟨⟨sc2, ft2, (pre ++ m :: post).length⟩, s2, ?_, hmem, ?_, ?_⟩
  · unfold Glue.create_tables
    rw [hloop]
  · simp [List.length_append]
    omega
  · simp at hsum ⊢
    omega

/-- Witness for C2: a two-good-one-malformed batch; the malformed middle
spec lands in `failed_tables` while both others succeed. -/
theorem c2_witness :
    ∃ r s', Glue.create_tables (σ := Unit) (fun _ _ s => (.ok, s)) "d" "b"
        ([⟨some "t1", none, some [⟨some "id", some "int"⟩], some "l1", none⟩] ++
          ⟨some "bad", none, none, some "l2", none⟩ ::
            [⟨some "t2", none, some [⟨some "id", some "int"⟩], some "l3", none⟩]) ()
        = (.ok r, s') ∧
      "bad" ∈ r.failed_tables ∧
      r.total_tables = 1 + 1 + 1 ∧
      r.success_count + r.failed_tables.length = r.total_tables :=
  c2_malformed_spec_isolated (σ := Unit) (fun _ _ s => (.ok, s)) "d" "b"
    [⟨some "t1", none, some [⟨some "id", some "int"⟩], some "l1", none⟩]
    [⟨some "t2", none, some [⟨some "id", some "int"⟩], some "l3", none⟩]
    ⟨some "bad", none, none, some "l2", none⟩ "bad" ()
    (by simp) (by simp) rfl rfl

/-- C3: a catalog `AlreadyExistsException` is classified as success: the
submission returns `True`, a singleton batch reports one success and no
failed table; and against a catalog that rejects duplicates (`glueCatalog`)
running the same spec twice yields a created outcome then an
already-exists outcome, both returning `True`. -/
theorem c3_already_exists_is_success {σ : Type}
    (glue : String → TableInput → σ → GlueResult × σ) (db bkt msg : String)
    (cfg : TableConfig) (ti : TableInput) (cat : List String) (s : σ) (s' : σ)
    (hb : Glue.buildTableInput db bkt cfg = .ok ti)
    (hglue : glue db ti s = (.clientError "AlreadyExistsException" msg, s'))
    (hcat : cat.contains ti.Name = false) :
    Glue.create_table glue db bkt cfg s = (.ok true, s') ∧
    Glue.create_tables glue db bkt [cfg] s = (.ok ⟨1, [], 1⟩, s') ∧
    Glue.create_table Glue.glueCatalog db bkt cfg cat = (.ok true, ti.Name :: cat) ∧
    Glue.create_table Glue.glueCatalog db bkt cfg (ti.Name :: cat)
      = (.ok true, ti.Name :: cat) ∧
    Glue.glueCatalog db ti cat = (.ok, ti.Name :: cat) ∧
    Glue.glueCatalog db ti (ti.Name :: cat)
      = (.clientError "AlreadyExistsException"
          ("Table " ++ ti.Name ++ " already exists"), ti.Name :: cat) := by
  have h1 : Glue.create_table glue db bkt cfg s = (.ok true, s') := by
    simp [Glue.create_table, hb, hglue]
  have hnotmem : ti.Name ∉ cat := by simpa using hcat
  have hc1 : Glue.glueCatalog db ti cat = (.ok, ti.Name :: cat) := by
    simp [Glue.glueCatalog, hcat, hnotmem]
  have hc2 : Glue.glueCatalog db ti (ti.Name :: cat)
      = (.clientError "AlreadyExistsException"
          ("Table " ++ ti.Name ++ " already exists"), ti.Name :: cat) := by
    simp [Glue.glueCatalog]
  refine ⟨h1, ?_, ?_, ?_, hc1, hc2⟩
  · simp [Glue.create_tables, Glue.create_tables_loop, h1]
  · simp [Glue.create_table, hb, hc1]
  · simp [Glue.create_table, hb, hc2]

/-- Witness for C3 at a concrete spec and an empty starting catalog. -/
theorem c3_witness :
    Glue.create_table (σ := Unit)
        (fun _ _ s => (.clientError "AlreadyExistsException" "dup", s)) "d" "b"
        ⟨some "t", none, some [⟨some "id", some "int"⟩], some "loc", none⟩ ()
      = (.ok true, ()) ∧
    Glue.create_tables (σ := Unit)
        (fun _ _ s => (.clientError "AlreadyExistsException" "dup", s)) "d" "b"
        [⟨some "t", none, some [⟨some "id", some "int"⟩], some "loc", none⟩] ()
      = (.ok ⟨1, [], 1⟩, ()) ∧
    Glue.create_table Glue.glueCatalog "d" "b"
        ⟨some "t", none, some [⟨some "id", some "int"⟩], some "loc", none⟩ []
      = (.ok true, ["t"]) ∧
    Glue.create_table Glue.glueCatalog "d" "b"
        ⟨some "t", none, some [⟨some "id", some "int"⟩], some "loc", none⟩ ["t"]
      = (.ok true, ["t"]) ∧
    Glue.glueCatalog "d"
        ⟨"t", "d", "", "EXTERNAL_TABLE", ⟨[⟨"id", "int"⟩], "s3://b/loc"⟩⟩ []
      = (.ok, ["t"]) ∧
    Glue.glueCatalog "d"
        ⟨"t", "d", "", "EXTERNAL_TABLE", ⟨[⟨"id", "int"⟩], "s3://b/loc"⟩⟩ ["t"]
      = (.clientError "AlreadyExistsException" "Table t already exists", ["t"]) := by
  have h := c3_already_exists_is_success (σ := Unit)
    (fun _ _ s => (.clientError "AlreadyExistsException" "dup", s)) "d" "b" "dup"
    ⟨some "t", none, some [⟨some "id", some "int"⟩], some "loc", none⟩
    ⟨"t", "d", "", "EXTERNAL_TABLE", ⟨[⟨"id", "int"⟩], "s3://b/loc"⟩⟩
    [] () () rfl rfl rfl
  exact h

/-- C4: for a QueryBackend spec, an accepted dispatch is counted as the
created/success outcome and a raising dispatch as a failure that appends
the spec's name to `failed_tables`; in both cases exactly one remote call
is made (the request trace grows by one entry — no polling for query
completion). -/
theorem c4_dispatch_outcome (f : StartQueryReq → AthenaResult)
    (cfg : TableConfig) (q n db bkt rb msg : String) (t : List StartQueryReq)
    (hq : cfg.query = some q) (hn : cfg.name = some n) :
    (f ⟨Athena.safe_substitute q [("DATA_BUCKET", bkt)], db,
          "s3://" ++ rb ++ "/athena-query-results/"⟩ = .accepted →
      Athena.create_tables (Athena.oracleOf f) db bkt rb [cfg] t
        = (.ok ⟨1, [], 1⟩,
            t ++ [⟨Athena.safe_substitute q [("DATA_BUCKET", bkt)], db,
              "s3://" ++ rb ++ "/athena-query-results/"⟩])) ∧
    (f ⟨Athena.safe_substitute q [("DATA_BUCKET", bkt)], db,
          "s3://" ++ rb ++ "/athena-query-results/"⟩ = .err msg →
      Athena.create_tables (Athena.oracleOf f) db bkt rb [cfg] t
        = (.ok ⟨0, [n], 1⟩,
            t ++ [⟨Athena.safe_substitute q [("DATA_BUCKET", bkt)], db,
              "s3://" ++ rb ++ "/athena-query-results/"⟩])) := by
  constructor <;> intro hf <;>
    simp [Athena.create_tables, Athena.create_tables_loop, Athena.execute_query,
      Athena.oracleOf, hq, hn, hf]

/-- Witness for C4 with a concrete accepting and a concrete rejecting
dispatch function. -/
theorem c4_witness :
    Athena.create_tables (Athena.oracleOf (fun _ => .accepted)) "d" "b" "r"
        [⟨some "t", none, none, none, some "q"⟩] []
      = (.ok ⟨1, [], 1⟩, [⟨"q", "d", "s3://r/athena-query-results/"⟩]) ∧
    Athena.create_tables (Athena.oracleOf (fun _ => .err "rejected")) "d" "b" "r"
        [⟨some "t", none, none, none, some "q"⟩] []
      = (.ok ⟨0, ["t"], 1⟩, [⟨"q", "d", "s3://r/athena-query-results/"⟩]) := by
  constructor
  · have h := (c4_dispatch_outcome (fun _ => .accepted)
      ⟨some "t", none, none, none, some "q"⟩ "q" "t" "d" "b" "r" "x" [] rfl rfl).1 rfl
    simpa using h
  · have h := (c4_dispatch_outcome (fun _ => .err "rejected")
      ⟨some "t", none, none, none, some "q"⟩ "q" "t" "d" "b" "r" "rejected" [] rfl rfl).2 rfl
    simpa using h

/-- C6: placeholder resolution replaces a mapped token by its value (for
every substituted value `v`, and in particular for `v = "b"`), and leaves a
token absent from the mapping verbatim; it is a total function, never
failing on missing keys. -/
theorem c6_safe_substitution (v : String) (subs : List (String × String))
    (hu : Athena.lookupSub subs "UNKNOWN" = none) :
    Athena.safe_substitute "SELECT * FROM '${DATA_BUCKET}/x'" [("DATA_BUCKET", v)]
      = "SELECT * FROM '" ++ v ++ "/x'" ∧
    Athena.safe_substitute "SELECT * FROM '${DATA_BUCKET}/x'" [("DATA_BUCKET", "b")]
      = "SELECT * FROM 'b/x'" ∧
    Athena.safe_substitute "${UNKNOWN}" subs = "${UNKNOWN}" := by
  refine ⟨?_, rfl, ?_⟩
  · obtain ⟨l⟩ := v
    rfl
  · show (String.mk
      (match Athena.lookupSub subs "UNKNOWN" with
        | some w => w.data ++ []
        | none => '$' :: '{' :: (['U', 'N', 'K', 'N', 'O', 'W', 'N'] ++ '}' :: [])))
      = "${UNKNOWN}"
    rw [hu]
    rfl

/-- Witness for C6 at `v = "b"` and the mapping of the spec's example. -/
theorem c6_witness :
    Athena.safe_substitute "SELECT * FROM '${DATA_BUCKET}/x'" [("DATA_BUCKET", "b")]
      = "SELECT * FROM '" ++ "b" ++ "/x'" ∧
    Athena.safe_substitute "SELECT * FROM '${DATA_BUCKET}/x'" [("DATA_BUCKET", "b")]
      = "SELECT * FROM 'b/x'" ∧
    Athena.safe_substitute "${UNKNOWN}" [("DATA_BUCKET", "b")] = "${UNKNOWN}" :=
  c6_safe_substitution "b" [("DATA_BUCKET", "b")] rfl

/-- C7 counterexample: the Athena variant substitutes the token
`DATA_BUCKET`, not `DATA_LOCATION`.  A spec whose query is the literal
`${DATA_LOCATION}` is dispatched unresolved, although resolving that query
with the substitution the claim names (`DATA_LOCATION` mapped to the
configured base location `"b"`) would yield `"b"`. -/
theorem c7_counterexample :
    (Athena.create_tables (Athena.oracleOf (fun _ => .accepted)) "db" "b" "r"
        [⟨some "t", none, none, none, some "${DATA_LOCATION}"⟩]
        ([] : List StartQueryReq)).2
      = [⟨"${DATA_LOCATION}", "db", "s3://r/athena-query-results/"⟩] ∧
    Athena.safe_substitute "${DATA_LOCATION}" [("DATA_LOCATION", "b")] = "b" ∧
    "${DATA_LOCATION}" ≠ "b" :=
  ⟨rfl, rfl, by decide⟩

/-- C7 amended: before dispatch the spec's query is resolved through the
placeholder resolver with the single substitution `DATA_BUCKET` mapped to
the configured base storage location, and the resolved statement is
submitted against the configured database and the configured
result-storage location — the request trace records exactly that one
request. -/
theorem c7_dispatches_resolved_query (f : StartQueryReq → AthenaResult)
    (cfg : TableConfig) (q db bkt rb : String) (t : List StartQueryReq)
    (hq : cfg.query = some q) :
    (Athena.create_tables (Athena.oracleOf f) db bkt rb [cfg] t).2
      = t ++ [⟨Athena.safe_substitute q [("DATA_BUCKET", bkt)], db,
          "s3://" ++ rb ++ "/athena-query-results/"⟩] := by
  rcases hf : f ⟨Athena.safe_substitute q [("DATA_BUCKET", bkt)], db,
      "s3://" ++ rb ++ "/athena-query-results/"⟩ with _ | msg <;>
    rcases hn : cfg.name with _ | nm <;>
      simp [Athena.create_tables, Athena.create_tables_loop, Athena.execute_query,
        Athena.oracleOf, hq, hn, hf]

/-- Witness for C7's amended theorem at a concrete spec. -/
theorem c7_witness :
    (Athena.create_tables (Athena.oracleOf (fun _ => .accepted)) "d" "b" "r"
        [⟨some "t", none, none, none, some "SELECT * FROM '${DATA_BUCKET}/x'"⟩]
        ([] : List StartQueryReq)).2
      = [] ++ [⟨Athena.safe_substitute "SELECT * FROM '${DATA_BUCKET}/x'"
            [("DATA_BUCKET", "b")], "d", "s3://" ++ "r" ++ "/athena-query-results/"⟩] :=
  c7_dispatches_resolved_query (fun _ => .accepted)
    ⟨some "t", none, none, none, some "SELECT * FROM '${DATA_BUCKET}/x'"⟩
    "SELECT * FROM '${DATA_BUCKET}/x'" "d" "b" "r" [] rfl

/-- C5 counterexample: with `DATABASE_NAME` entirely absent from the
environment, the module-level `os.environ['DATABASE_NAME']` read raises
`KeyError` at import time, so the invocation produces no response at all —
in particular not the claimed `\x7bstatusCode: 500\x7d` shape. -/
theorem c5_counterexample :
    Glue.invoke (σ := Unit) (fun _ _ s => (.ok, s))
        (fun _ => (none : Option String)) (.ok []) ()
      = .error "KeyError: DATABASE_NAME" := rfl

/-- C5 amended: when the required variables are present at module load but
one of them is empty, the handler returns the fatal
`\x7bstatusCode: 500, body: \x7berror\x7d\x7d` shape with the backend
state untouched, and the result is independent of both the ConfigSource
result and the backend — neither is invoked.  (When a variable is absent
entirely the module fails to import instead, per the counterexample.) -/
theorem c5_empty_config_is_fatal {σ : Type}
    (glue glue' : String → TableInput → σ → GlueResult × σ)
    (env : String → Option String) (rc rc' : Except String (List TableConfig))
    (s : σ) (d b : String)
    (h1 : env "DATABASE_NAME" = some d) (h2 : env "DATA_BUCKET" = some b)
    (hmiss : d = "" ∨ b = "") :
    (∃ e, Glue.invoke glue env rc s = .ok (⟨500, .fatal e⟩, s)) ∧
    Glue.invoke glue env rc' s = Glue.invoke glue env rc s ∧
    Glue.invoke glue' env rc s = Glue.invoke glue env rc s := by
  have hval : ∃ e, Glue.validate_env_vars env = .error e := by
    rcases hmiss with hd | hb
    · subst hd
      simp [Glue.validate_env_vars, h1, h2, pyTruthy]
    · subst hb
      by_cases hd0 : d = ""
      · subst hd0
        simp [Glue.validate_env_vars, h1, h2, pyTruthy]
      · simp [Glue.validate_env_vars, h1, h2, pyTruthy, hd0]
  obtain ⟨e, hv⟩ := hval
  refine ⟨⟨e, ?_⟩, ?_, ?_⟩ <;>
    simp [Glue.invoke, Glue.moduleInit, Glue.lambda_handler, h1, h2, hv]

/-- Witness for C5's amended theorem: `DATABASE_NAME` set but empty. -/
theorem c5_witness :
    (∃ e, Glue.invoke (σ := Unit) (fun _ _ s => (.ok, s))
        (fun v => if v = "DATABASE_NAME" then some "" else some "b") (.ok []) ()
      = .ok (⟨500, .fatal e⟩, ())) ∧
    Glue.invoke (σ := Unit) (fun _ _ s => (.ok, s))
        (fun v => if v = "DATABASE_NAME" then some "" else some "b")
        (.error "ConfigError") ()
      = Glue.invoke (σ := Unit) (fun _ _ s => (.ok, s))
          (fun v => if v = "DATABASE_NAME" then some "" else some "b") (.ok []) () ∧
    Glue.invoke (σ := Unit) (fun _ _ s => (.otherError "down", s))
        (fun v => if v = "DATABASE_NAME" then some "" else some "b") (.ok []) ()
      = Glue.invoke (σ := Unit) (fun _ _ s => (.ok, s))
          (fun v => if v = "DATABASE_NAME" then some "" else some "b") (.ok []) () :=
  c5_empty_config_is_fatal (σ := Unit)
    (fun _ _ s => (.ok, s)) (fun _ _ s => (.otherError "down", s))
    (fun v => if v = "DATABASE_NAME" then some "" else some "b")
    (.ok []) (.error "ConfigError") () "" "b" rfl rfl (Or.inl rfl)

/-- C10: when a spec without a `name` key fails, the per-item handler's own
read of `config['name']` raises, the `KeyError` escapes `create_tables`
(no report is produced), the entry point answers with the fatal
`\x7bstatusCode: 500\x7d` shape, and the backend state stays whatever it
was after the specs before the faulty one — later specs are never
attempted. -/
theorem c10_missing_name_escapes {σ : Type}
    (glue : String → TableInput → σ → GlueResult × σ) (db bkt : String)
    (env : String → Option String) (pre post : List TableConfig)
    (m : TableConfig) (s : σ)
    (henv1 : env "DATABASE_NAME" = some db) (hdb : db ≠ "")
    (henv2 : env "DATA_BUCKET" = some bkt) (hbkt : bkt ≠ "")
    (hpre : ∀ c ∈ pre, (c.name).isSome) (hm : m.name = none) :
    ∃ sc1 ft1 s1,
      Glue.create_tables_loop glue db bkt pre 0 [] s = (.ok (sc1, ft1), s1) ∧
      Glue.create_tables glue db bkt (pre ++ m :: post) s
        = (.error "KeyError: name", s1) ∧
      Glue.invoke glue env (.ok (pre ++ m :: post)) s
        = .ok (⟨500, .fatal "KeyError: name"⟩, s1) := by
  obtain ⟨sc1, ft1, s1, h1⟩ := Glue.loop_total glue db bkt pre 0 [] s hpre
  have hmstep : Glue.create_table glue db bkt m s1 = (.error "KeyError: name", s1) := by
    simp [Glue.create_table, Glue.buildTableInput, hm]
  have hloop : Glue.create_tables_loop glue db bkt (pre ++ m :: post) 0 [] s
      = (.error "KeyError: name", s1) := by
    rw [Glue.loop_append_ok glue db bkt pre (m :: post) 0 [] s sc1 ft1 s1 h1]
    simp [Glue.create_tables_loop, hmstep, hm]
  have hct : Glue.create_tables glue db bkt (pre ++ m :: post) s
      = (.error "KeyError: name", s1) := by
    unfold Glue.create_tables
    rw [hloop]
  have hval : Glue.validate_env_vars env = .ok () := by
    simp [Glue.validate_env_vars, henv1, henv2, pyTruthy, hdb, hbkt]
  refine ⟨sc1, ft1, s1, h1, hct, ?_⟩
  simp [Glue.invoke, Glue.moduleInit, Glue.lambda_handler, henv1, henv2, hval, hct]

/-- Witness for C10: one good spec, then a nameless one whose failure
escapes; the trailing good spec is never reached. -/
theorem c10_witness :
    ∃ sc1 ft1 s1,
      Glue.create_tables_loop (σ := Unit) (fun _ _ s => (.ok, s)) "d" "b"
          [⟨some "t1", none, some [⟨some "id", some "int"⟩], some "l1", none⟩]
          0 [] () = (.ok (sc1, ft1), s1) ∧
      Glue.create_tables (σ := Unit) (fun _ _ s => (.ok, s)) "d" "b"
          ([⟨some "t1", none, some [⟨some "id", some "int"⟩], some "l1", none⟩] ++
            ⟨none, none, none, some "l2", none⟩ ::
              [⟨some "t2", none, some [⟨some "id", some "int"⟩], some "l3", none⟩]) ()
        = (.error "KeyError: name", s1) ∧
      Glue.invoke (σ := Unit) (fun _ _ s => (.ok, s))
          (fun v => if v = "DATABASE_NAME" then some "d" else some "b")
          (.ok ([⟨some "t1", none, some [⟨some "id", some "int"⟩], some "l1", none⟩] ++
            ⟨none, none, none, some "l2", none⟩ ::
              [⟨some "t2", none, some [⟨some "id", some "int"⟩], some "l3", none⟩])) ()
        = .ok (⟨500, .fatal "KeyError: name"⟩, s1) :=
  c10_missing_name_escapes (σ := Unit) (fun _ _ s => (.ok, s)) "d" "b"
    (fun v => if v = "DATABASE_NAME" then some "d" else some "b")
    [⟨some "t1", none, some [⟨some "id", some "int"⟩], some "l1", none⟩]
    [⟨some "t2", none, some [⟨some "id", some "int"⟩], some "l3", none⟩]
    ⟨none, none, none, some "l2", none⟩ ()
    rfl (by decide) rfl (by decide) (by simp) rfl

/-- C8: the table definition submitted by the DefinitionBackend has its
columns built from `spec.columns` in order as name/type pairs, its storage
location composed of the configured base location (`s3://<bucket>`), a
slash, and `spec.location`, the external-table tag, and the spec's
description (empty when absent). -/
theorem c8_table_input_shape (db bkt n loc : String) (cfg : TableConfig)
    (cols : List ColumnConfig) (cdefs : List ColumnDef)
    (hn : cfg.name = some n) (hcols : cfg.columns = some cols)
    (hloc : cfg.location = some loc)
    (hp : Glue.parse_column_definitions cols = .ok cdefs) :
    Glue.buildTableInput db bkt cfg
      = .ok ⟨n, db, cfg.description.getD "", "EXTERNAL_TABLE",
          ⟨cdefs, "s3://" ++ bkt ++ "/" ++ loc⟩⟩ ∧
    cdefs = cols.map (fun c => ⟨c.name.getD "", c.type.getD ""⟩) := by
  constructor
  · simp [Glue.buildTableInput, hn, hcols, hloc, hp]
  · clear hn hcols hloc
    induction cols generalizing cdefs with
    | nil =>
      simp only [Glue.parse_column_definitions, Except.ok.injEq] at hp
      simp [← hp]
    | cons col rest ih =>
      simp only [Glue.parse_column_definitions] at hp
      rcases hcn : col.name with _ | cn
      · rw [hcn] at hp
        exact absurd hp (by simp)
      · rw [hcn] at hp
        rcases hct : col.type with _ | ct
        · rw [hct] at hp
          exact absurd hp (by simp)
        · rw [hct] at hp
          rcases hr : Glue.parse_column_definitions rest with e | cs
          · rw [hr] at hp
            exact absurd hp (by simp [Except.map])
          · rw [hr] at hp
            simp only [Except.map, Except.ok.injEq] at hp
            subst hp
            simp [hcn, hct, ih cs hr]

/-- Witness for C8 at a concrete two-column spec without a description. -/
theorem c8_witness :
    Glue.buildTableInput "d" "b" ⟨some "t", none,
        some [⟨some "id", some "int"⟩, ⟨some "val", some "string"⟩], some "loc", none⟩
      = .ok ⟨"t", "d",
          (⟨some "t", none,
            some [⟨some "id", some "int"⟩, ⟨some "val", some "string"⟩],
            some "loc", none⟩ : TableConfig).description.getD "",
          "EXTERNAL_TABLE",
          ⟨[⟨"id", "int"⟩, ⟨"val", "string"⟩], "s3://" ++ "b" ++ "/" ++ "loc"⟩⟩ ∧
    [(⟨"id", "int"⟩ : ColumnDef), ⟨"val", "string"⟩]
      = [(⟨some "id", some "int"⟩ : ColumnConfig), ⟨some "val", some "string"⟩].map
          (fun c => ⟨c.name.getD "", c.type.getD ""⟩) :=
  c8_table_input_shape "d" "b" "t" "loc"
    ⟨some "t", none, some [⟨some "id", some "int"⟩, ⟨some "val", some "string"⟩],
      some "loc", none⟩
    [⟨some "id", some "int"⟩, ⟨some "val", some "string"⟩]
    [⟨"id", "int"⟩, ⟨"val", "string"⟩]
    rfl rfl rfl rfl
